import Mathlib

/-!
Shallow embedding of the public-portfolio chat session controller
(`PublicPortfolioPage` and its `StreamingMessage` child component).

The component state hooks become fields of `ChatState`; the async handlers
`fetchPortfolio` and `sendMessage` become pure state transformers taking the
settled outcome of their single network call as an explicit argument
(`LookupResult` / `ApiResult`).  `sendMessage` additionally returns the body of
the HTTP request it issued, or `none` when the guard returned early, so that
"no network call was made" is an observable fact.  The `StreamingMessage`
reveal (a `setInterval` over a fully known answer string) becomes a step
function `revealTick` on a `RevealState`; JS strings indexed by code units are
modelled as `List Char`.
-/

namespace Botfolio

/-- Field `role` of a chat message: user or assistant. -/
inductive Role where
  | user
  | assistant
deriving DecidableEq, Repr

/-- One element of the `messages` array: `{ role, content }`. -/
structure Message where
  role : Role
  content : String
deriving DecidableEq, Repr

/-- Settled outcome of the `axios.post` chat call: a 2xx payload
`{response}`, an HTTP 429 rejection, or any other rejection. -/
inductive ApiResult where
  | success (response : String)
  | rateLimited
  | otherFailure
deriving DecidableEq, Repr

/-- Settled outcome of the `axios.get` portfolio lookup: payload with
`owner_name`, or a rejection (not-found / network). -/
inductive LookupResult where
  | ok (ownerName : String)
  | failure
deriving DecidableEq, Repr

/-- The React state hooks of `PublicPortfolioPage`. -/
structure ChatState where
  portfolio : Option String
  loading : Bool
  messages : List Message
  inputMessage : String
  sending : Bool
  streamingIdx : Option Nat
  showLimitModal : Bool
deriving DecidableEq, Repr

/-- Initial hook values: `portfolio = null`, `loading = true`,
`messages = []`, empty input, not sending, no streaming index, no modal. -/
def initState : ChatState :=
  { portfolio := none
    loading := true
    messages := []
    inputMessage := ""
    sending := false
    streamingIdx := none
    showLimitModal := false }

/-- Welcome message seeded on a successful portfolio lookup. -/
def seedMessage (ownerName : String) : Message :=
  { role := Role.assistant
    content := "Hi! I\x27m the AI assistant for **" ++ ownerName ++
      "**\x27s portfolio. Ask me anything about their experience, skills, projects, or qualifications!" }

/-- Handler `fetchPortfolio`: on a 2xx response, stores the portfolio and seeds
`messages` with the single welcome message; on any rejection, only the
`toast.error` side channel fires.  Both paths clear `loading` (the
`finally` block).  The rejection is caught locally, so the function is
total: no outcome escapes as an exception. -/
def fetchPortfolio (r : LookupResult) (s : ChatState) : ChatState :=
  match r with
  | LookupResult.ok name =>
      { s with portfolio := some name
               messages := [seedMessage name]
               loading := false }
  | LookupResult.failure => { s with loading := false }

/-- JS `String.prototype.trim()`: strip leading and trailing whitespace. -/
def jsTrim (s : String) : String :=
  String.mk (((s.data.dropWhile Char.isWhitespace).reverse.dropWhile Char.isWhitespace).reverse)

/-- The fixed apologetic fallback content appended on a generic send failure. -/
def fallbackText : String := "Sorry, I encountered an error. Please try again."

/-- Helper `addAssistantMessage(text)`: appends an assistant message and points
`streamingIdx` at it (`next.length - 1`). -/
def addAssistantMessage (text : String) (s : ChatState) : ChatState :=
  let next := s.messages ++ [{ role := Role.assistant, content := text }]
  { s with messages := next, streamingIdx := some (next.length - 1) }

/-- Resolution `const msg = text || inputMessage.trim()`: an absent or empty (falsy)
argument falls back to the trimmed input buffer. -/
def resolveText (text : Option String) (s : ChatState) : String :=
  match text with
  | some t => if t = "" then jsTrim s.inputMessage else t
  | none => jsTrim s.inputMessage

/-- Handler `sendMessage(text)` as a transformer of the settled request: guard
`if (!msg || sending) return`, then clear the input, set `sending`, append
the user message, perform the call (its body is the second component of the
result; `none` means no request was issued), dispatch on the outcome
(success / 429 / other), and finally clear `sending`. -/
def sendMessage (text : Option String) (api : ApiResult) (s : ChatState) :
    ChatState × Option String :=
  let msg := resolveText text s
  if msg = "" ∨ s.sending = true then (s, none)
  else
    let s1 := { s with inputMessage := ""
                       sending := true
                       messages := s.messages ++ [{ role := Role.user, content := msg }] }
    let s2 :=
      match api with
      | ApiResult.success resp => addAssistantMessage resp s1
      | ApiResult.rateLimited => { s1 with showLimitModal := true }
      | ApiResult.otherFailure => addAssistantMessage fallbackText s1
    ({ s2 with sending := false }, some msg)

/-- The four quick-reply suggested questions. -/
def recommendedQuestions : List String :=
  ["Tell me about your experience",
   "What are your key skills?",
   "What are your strengths?",
   "Describe your projects"]

/-- The three top-level renderings of the page: the loading spinner, the
"Portfolio Not Found" screen, and the chat surface. -/
inductive ViewState where
  | loadingView
  | notFound
  | chatView
deriving DecidableEq, Repr

/-- Top-level render dispatch: `if (loading) … if (!portfolio) …` else chat. -/
def render (s : ChatState) : ViewState :=
  if s.loading = true then ViewState.loadingView
  else if s.portfolio = none then ViewState.notFound
  else ViewState.chatView

/-- Constant `CHUNK`: characters revealed per tick. -/
def CHUNK : Nat := 3

/-- Constant `DELAY`: milliseconds between ticks (presentation pacing only). -/
def DELAY : Nat := 18

/-- Local state of one `StreamingMessage` component: the published
`displayed` string, the `indexRef` cursor, and whether the interval is
still installed. -/
structure RevealState where
  displayed : List Char
  index : Nat
  active : Bool
deriving DecidableEq, Repr

/-- Effect setup: `displayed` starts as the empty string and the cursor at 0; for a falsy
(empty) content the effect returns before installing the interval. -/
def initReveal (content : List Char) : RevealState :=
  if content.isEmpty then { displayed := [], index := 0, active := false }
  else { displayed := [], index := 0, active := true }

/-- One interval tick.  An uninstalled interval does nothing.  Once the
cursor has reached the end, the interval is cleared and `onDone` fires
(the boolean).  Otherwise the cursor advances by `CHUNK`, capped at the
length, and `content.slice(0, end)` is published. -/
def revealTick (content : List Char) (r : RevealState) : RevealState × Bool :=
  if r.active = false then (r, false)
  else if content.length ≤ r.index then ({ r with active := false }, true)
  else
    let e := min (r.index + CHUNK) content.length
    ({ displayed := content.take e, index := e, active := true }, false)

/-- The effect cleanup / unmount path: `clearInterval` only — the published
`displayed` string is left as it is. -/
def cancelReveal (r : RevealState) : RevealState := { r with active := false }

/-- The reveal after `n` ticks from setup, paired with whether `onDone`
has fired at any tick so far. -/
def revealRun (content : List Char) : Nat → RevealState × Bool
  | 0 => (initReveal content, false)
  | n + 1 =>
      let p := revealRun content n
      let q := revealTick content p.1
      (q.1, p.2 || q.2)

/-- Iterated ticks applied to an arbitrary reveal state. -/
def revealTickN (content : List Char) : Nat → RevealState → RevealState
  | 0, r => r
  | n + 1, r => revealTickN content n (revealTick content r).1

/-- One page-level tick: the component tick plus the host wiring
`onDone={() => setStreamingIdx(null)}`. -/
def pageTick (content : List Char) (s : ChatState) (r : RevealState) :
    ChatState × RevealState :=
  let q := revealTick content r
  (if q.2 = true then { s with streamingIdx := none } else s, q.1)

/-- The page after `n` reveal ticks starting from the effect setup. -/
def pageRun (content : List Char) (s : ChatState) : Nat → ChatState × RevealState
  | 0 => (s, initReveal content)
  | n + 1 =>
      let p := pageRun content s n
      pageTick content p.1 p.2

/-!  General lemmas about the embedded operations, shared by the claim
theorems below. -/

/-- While `sending` is set, the guard makes `sendMessage` return before any
state write and before the request is issued. -/
lemma sendMessage_of_sending (t : Option String) (api : ApiResult) (s : ChatState)
    (hs : s.sending = true) : sendMessage t api s = (s, none) := by
  simp [sendMessage, hs]

/-- When the guard passes, a successful request appends the user message and
the assistant answer, points `streamingIdx` at the answer, clears the input
and the `sending` flag. -/
lemma sendMessage_success_eq (t : Option String) (resp : String) (s : ChatState)
    (hs : s.sending = false) (hm : resolveText t s ≠ "") :
    sendMessage t (ApiResult.success resp) s =
      ({ s with inputMessage := ""
                sending := false
                messages := s.messages ++
                  [{ role := Role.user, content := resolveText t s },
                   { role := Role.assistant, content := resp }]
                streamingIdx := some (s.messages.length + 1) },
       some (resolveText t s)) := by
  simp [sendMessage, addAssistantMessage, hs, hm]

/-- When the guard passes, a 429 rejection appends only the user message and
opens the limit modal. -/
lemma sendMessage_rateLimited_eq (t : Option String) (s : ChatState)
    (hs : s.sending = false) (hm : resolveText t s ≠ "") :
    sendMessage t ApiResult.rateLimited s =
      ({ s with inputMessage := ""
                sending := false
                messages := s.messages ++
                  [{ role := Role.user, content := resolveText t s }]
                showLimitModal := true },
       some (resolveText t s)) := by
  simp [sendMessage, hs, hm]

/-- When the guard passes, any other rejection appends the user message and
the fixed fallback assistant message, and points `streamingIdx` at the
fallback. -/
lemma sendMessage_otherFailure_eq (t : Option String) (s : ChatState)
    (hs : s.sending = false) (hm : resolveText t s ≠ "") :
    sendMessage t ApiResult.otherFailure s =
      ({ s with inputMessage := ""
                sending := false
                messages := s.messages ++
                  [{ role := Role.user, content := resolveText t s },
                   { role := Role.assistant, content := fallbackText }]
                streamingIdx := some (s.messages.length + 1) },
       some (resolveText t s)) := by
  simp [sendMessage, addAssistantMessage, hs, hm]

/-- Reveal of a falsy (empty) content: the interval is never installed and
nothing ever happens — in particular `onDone` never fires. -/
lemma revealRun_nil (n : Nat) :
    revealRun [] n = ({ displayed := [], index := 0, active := false }, false) := by
  induction n with
  | zero => simp [revealRun, initReveal]
  | succ n ih => simp [revealRun, ih, revealTick]

/-- Closed form of the reveal of a non-empty content after `n` ticks: the
cursor sits at `min (CHUNK * n) length`, the published string is the
corresponding prefix, the interval is installed until the tick after the
cursor reached the end, and `onDone` has fired exactly from that tick on. -/
lemma revealRun_eq (c : List Char) (hc : c ≠ []) (n : Nat) :
    revealRun c n =
      ({ displayed := c.take (min (CHUNK * n) c.length)
         index := min (CHUNK * n) c.length
         active := decide (CHUNK * (n - 1) < c.length) },
       decide (1 ≤ n) && decide (c.length ≤ CHUNK * (n - 1))) := by
  have hL : 0 < c.length := List.length_pos.mpr hc
  simp only [CHUNK]
  induction n with
  | zero =>
      simp only [revealRun, initReveal, List.isEmpty_eq_true]
      rw [if_neg hc]
      simp
      omega
  | succ n ih =>
      rw [revealRun, ih]
      by_cases h1 : 3 * (n - 1) < c.length
      · by_cases h2 : c.length ≤ min (3 * n) c.length
        · have hmin : min (3 * n) c.length = c.length := by omega
          have h3 : ¬ 3 * (n + 1 - 1) < c.length := by omega
          have h4 : c.length ≤ 3 * (n + 1 - 1) := by omega
          have h5 : min (3 * (n + 1)) c.length = c.length := by omega
          simp [revealTick, CHUNK, h1, h2, hmin, h3, h4, h5]; omega
        · have h2' : min (3 * n) c.length < c.length := by omega
          have hmin : min (3 * n) c.length = 3 * n := by omega
          have h3 : 3 * (n + 1 - 1) < c.length := by omega
          have h4 : ¬ c.length ≤ 3 * (n + 1 - 1) := by omega
          have h6 : ¬ c.length ≤ 3 * (n - 1) := by omega
          have h5 : min (min (3 * n) c.length + 3) c.length
              = min (3 * (n + 1)) c.length := by omega
          simp [revealTick, CHUNK, h1, h2, h3, h4, h5, h6]; omega
      · have hn : 1 ≤ n := by omega
        have h4 : c.length ≤ 3 * (n - 1) := by omega
        have hmin : min (3 * n) c.length = c.length := by omega
        have h3 : ¬ 3 * (n + 1 - 1) < c.length := by omega
        have h4' : c.length ≤ 3 * (n + 1 - 1) := by omega
        have h5 : min (3 * (n + 1)) c.length = c.length := by omega
        simp [revealTick, CHUNK, h1, hn, h4, hmin, h3, h4', h5]; omega

/-- A non-empty string has a non-empty character list. -/
lemma data_ne_nil (s : String) (h : s ≠ "") : s.data ≠ [] := by
  intro hd
  apply h
  cases s with
  | mk l =>
      cases l with
      | nil => rfl
      | cons a t => simp at hd

/-- The published string is always the prefix of the content delimited by
the cursor: the reveal computes a derived view, it stores nothing else. -/
lemma revealRun_displayed (c : List Char) (n : Nat) :
    (revealRun c n).1.displayed = c.take ((revealRun c n).1.index) := by
  by_cases hc : c = []
  · subst hc
    rw [revealRun_nil]
    rfl
  · rw [revealRun_eq c hc]

/-- A tick on a cancelled reveal does nothing: the interval is gone. -/
lemma revealTick_cancel (c : List Char) (r : RevealState) :
    revealTick c (cancelReveal r) = (cancelReveal r, false) := by
  simp [revealTick, cancelReveal]

/-- Any number of ticks on a cancelled reveal does nothing. -/
lemma revealTickN_cancel (c : List Char) (n : Nat) (r : RevealState) :
    revealTickN c n (cancelReveal r) = cancelReveal r := by
  induction n with
  | zero => rfl
  | succ n ih => rw [revealTickN, revealTick_cancel]; exact ih

/-- Page-level runs factor through the component run: the chat state is
touched only by the `onDone` wiring, which clears `streamingIdx` once
`onDone` has fired. -/
lemma pageRun_eq (c : List Char) (s : ChatState) (n : Nat) :
    pageRun c s n =
      ((if (revealRun c n).2 = true then { s with streamingIdx := none } else s),
       (revealRun c n).1) := by
  induction n with
  | zero => simp [pageRun, revealRun]
  | succ n ih =>
      rw [pageRun, ih, revealRun]
      cases hq : (revealTick c (revealRun c n).1).2 with
      | false =>
          cases hp : (revealRun c n).2 with
          | false => simp [pageTick, hq, hp]
          | true => simp [pageTick, hq, hp]
      | true =>
          cases hp : (revealRun c n).2 with
          | false => simp [pageTick, hq, hp]
          | true => simp [pageTick, hq, hp]

end Botfolio

namespace Botfolio

/-!  Claim theorems. -/

/-- A loaded page with pending typed input, used to instantiate the claim
theorems on concrete data. -/
def sampleState : ChatState :=
  { fetchPortfolio (LookupResult.ok ("Jane Doe")) initState with inputMessage := "hello" }

/-- C1: when the request of a submitted question fails with the rate-limit (429)
signal, no assistant message is appended — the sequence grows by exactly one,
the user message — and the distinct quota-exceeded event (the limit modal)
is raised for the hosting view. -/
theorem quota_failure_appends_no_assistant (t : Option String) (s : ChatState)
    (hs : s.sending = false) (hm : resolveText t s ≠ "") :
    (sendMessage t ApiResult.rateLimited s).1.messages
        = s.messages ++ [{ role := Role.user, content := resolveText t s }] ∧
    (sendMessage t ApiResult.rateLimited s).1.messages.length
        = s.messages.length + 1 ∧
    (sendMessage t ApiResult.rateLimited s).1.showLimitModal = true := by
  rw [sendMessage_rateLimited_eq t s hs hm]
  simp

/-- C1, instantiated: the sample page submits `"hello"` and receives a 429. -/
theorem quota_failure_appends_no_assistant_witness :
    (sendMessage none ApiResult.rateLimited sampleState).1.messages
        = sampleState.messages ++ [{ role := Role.user, content := resolveText none sampleState }] ∧
    (sendMessage none ApiResult.rateLimited sampleState).1.messages.length
        = sampleState.messages.length + 1 ∧
    (sendMessage none ApiResult.rateLimited sampleState).1.showLimitModal = true :=
  quota_failure_appends_no_assistant none sampleState (by decide) (by decide)

/-- C2, counterexample: on a generic failure the fallback assistant message
is appended, but `streamingIdx` is set to its index (here 2) — the error
path reuses `addAssistantMessage`, so the fallback IS picked up by the
streaming reveal, contradicting "the streaming cursor is not set to it". -/
theorem generic_failure_counterexample :
    (sendMessage none ApiResult.otherFailure sampleState).1.messages.get? 2
        = some { role := Role.assistant, content := fallbackText } ∧
    (sendMessage none ApiResult.otherFailure sampleState).1.messages.length = 3 ∧
    (sendMessage none ApiResult.otherFailure sampleState).1.streamingIdx = some 2 := by
  decide

/-- C2, amended: on every non-429 failure exactly one fallback assistant
message with the fixed apologetic string is appended, and the streaming
cursor IS set to it (it is revealed exactly like a successful answer). -/
theorem generic_failure_appends_fallback (t : Option String) (s : ChatState)
    (hs : s.sending = false) (hm : resolveText t s ≠ "") :
    (sendMessage t ApiResult.otherFailure s).1.messages
        = s.messages ++
          [{ role := Role.user, content := resolveText t s },
           { role := Role.assistant, content := fallbackText }] ∧
    (sendMessage t ApiResult.otherFailure s).1.streamingIdx
        = some (s.messages.length + 1) := by
  rw [sendMessage_otherFailure_eq t s hs hm]
  simp

/-- C2, instantiated: the sample page submits `"hello"` and the request is
rejected with a non-429 error. -/
theorem generic_failure_appends_fallback_witness :
    (sendMessage none ApiResult.otherFailure sampleState).1.messages
        = sampleState.messages ++
          [{ role := Role.user, content := resolveText none sampleState },
           { role := Role.assistant, content := fallbackText }] ∧
    (sendMessage none ApiResult.otherFailure sampleState).1.streamingIdx
        = some (sampleState.messages.length + 1) :=
  generic_failure_appends_fallback none sampleState (by decide) (by decide)

/-- C3: while the `sending` flag is set, a further `sendMessage` call is a
silent no-op — the state is returned unchanged (no user message appended,
nothing mutated) and no request is issued (the second component is `none`);
hence at most one request is in flight at a time. -/
theorem submit_while_sending_noop (t : Option String) (api : ApiResult)
    (s : ChatState) (hs : s.sending = true) :
    sendMessage t api s = (s, none) :=
  sendMessage_of_sending t api s hs

/-- C3, instantiated: a second submission while the sample page is already
sending changes nothing and issues no request. -/
theorem submit_while_sending_noop_witness :
    sendMessage (some ("What are your strengths?")) (ApiResult.success ("yo"))
        { sampleState with sending := true }
      = ({ sampleState with sending := true }, none) :=
  submit_while_sending_noop (some ("What are your strengths?"))
    (ApiResult.success ("yo")) { sampleState with sending := true } (by decide)

end Botfolio

namespace Botfolio

/-- When the guard passes, every outcome appends the user message built from
the resolved text, followed by the assistant messages of the outcome. -/
lemma sendMessage_appends_user (t : Option String) (api : ApiResult) (s : ChatState)
    (hs : s.sending = false) (hm : resolveText t s ≠ "") :
    ∃ rest, (sendMessage t api s).1.messages
        = s.messages ++ { role := Role.user, content := resolveText t s } :: rest := by
  cases api with
  | success r =>
      exact ⟨[{ role := Role.assistant, content := r }],
        by rw [sendMessage_success_eq t r s hs hm]⟩
  | rateLimited =>
      exact ⟨[], by rw [sendMessage_rateLimited_eq t s hs hm]⟩
  | otherFailure =>
      exact ⟨[{ role := Role.assistant, content := fallbackText }],
        by rw [sendMessage_otherFailure_eq t s hs hm]⟩

/-- C4, counterexample: a successful but empty response.  The assistant
message is appended and `streamingIdx` points at it (index 2), but since
the empty string is falsy the reveal effect returns before installing the interval, so
`onDone` never fires and the streaming cursor is never cleared: no number
of ticks ever brings `streamingIdx` back to `none`. -/
theorem success_reveal_counterexample :
    (sendMessage none (ApiResult.success ("")) sampleState).1.streamingIdx = some 2 ∧
    ¬ ∃ n, (pageRun ("" : String).data
        (sendMessage none (ApiResult.success ("")) sampleState).1 n).1.streamingIdx = none := by
  constructor
  · decide
  · rintro ⟨n, h⟩
    rw [show ("" : String).data = ([] : List Char) from rfl, pageRun_eq, revealRun_nil] at h
    simp at h
    exact absurd h (by decide)

/-- C4, amended (restricted to non-empty responses): on success exactly one
assistant message holding the returned answer is appended and the streaming
cursor is set to it; the reveal starts with cursor 0, each tick publishes
the prefix `[0, cursor)`, and — if not cancelled — it ends with the full
response text displayed, the interval stopped, and the streaming cursor
cleared. -/
theorem success_appends_and_reveals (t : Option String) (resp : String) (s : ChatState)
    (hs : s.sending = false) (hm : resolveText t s ≠ "") (hr : resp ≠ "") :
    (sendMessage t (ApiResult.success resp) s).1.messages
        = s.messages ++ [{ role := Role.user, content := resolveText t s },
                         { role := Role.assistant, content := resp }] ∧
    (sendMessage t (ApiResult.success resp) s).1.streamingIdx
        = some (s.messages.length + 1) ∧
    (pageRun resp.data (sendMessage t (ApiResult.success resp) s).1 0).2.index = 0 ∧
    (∀ k, (pageRun resp.data (sendMessage t (ApiResult.success resp) s).1 k).2.displayed
        = resp.data.take
            ((pageRun resp.data (sendMessage t (ApiResult.success resp) s).1 k).2.index)) ∧
    (∃ n, (pageRun resp.data (sendMessage t (ApiResult.success resp) s).1 n).2.displayed
            = resp.data ∧
          (pageRun resp.data (sendMessage t (ApiResult.success resp) s).1 n).2.active = false ∧
          (pageRun resp.data (sendMessage t (ApiResult.success resp) s).1 n).1.streamingIdx
            = none) := by
  have hd : resp.data ≠ [] := data_ne_nil resp hr
  refine ⟨?_, ?_, ?_, ?_, ?_⟩
  · rw [sendMessage_success_eq t resp s hs hm]
  · rw [sendMessage_success_eq t resp s hs hm]
  · rw [pageRun_eq, revealRun_eq resp.data hd]
    simp
  · intro k
    rw [pageRun_eq]
    exact revealRun_displayed resp.data k
  · refine ⟨resp.data.length + 1, ?_⟩
    rw [pageRun_eq, revealRun_eq resp.data hd]
    have h1 : min (CHUNK * (resp.data.length + 1)) resp.data.length
        = resp.data.length := by simp [CHUNK]; omega
    have h2 : ¬ CHUNK * (resp.data.length + 1 - 1) < resp.data.length := by
      simp [CHUNK]; omega
    have h3 : (decide (1 ≤ resp.data.length + 1)
        && decide (resp.data.length ≤ CHUNK * (resp.data.length + 1 - 1))) = true := by
      simp [CHUNK]; omega
    have h4 : resp.length ≤ CHUNK * resp.length := by simp [CHUNK]; omega
    have h5 : resp.length ≤ CHUNK * (resp.length + 1) := by simp [CHUNK]; omega
    simp [h1, h2, h3, h4, h5]

/-- C4, instantiated: the sample page submits `"hello"` and the backend
answers `"Python, Go, and distributed systems."`. -/
theorem success_appends_and_reveals_witness :
    (sendMessage none (ApiResult.success ("Python, Go, and distributed systems."))
        sampleState).1.messages
      = sampleState.messages ++
          [{ role := Role.user, content := resolveText none sampleState },
           { role := Role.assistant, content := "Python, Go, and distributed systems." }] ∧
    (sendMessage none (ApiResult.success ("Python, Go, and distributed systems."))
        sampleState).1.streamingIdx = some (sampleState.messages.length + 1) ∧
    (pageRun ("Python, Go, and distributed systems." : String).data
        (sendMessage none (ApiResult.success ("Python, Go, and distributed systems."))
          sampleState).1 0).2.index = 0 ∧
    (∀ k, (pageRun ("Python, Go, and distributed systems." : String).data
        (sendMessage none (ApiResult.success ("Python, Go, and distributed systems."))
          sampleState).1 k).2.displayed
      = ("Python, Go, and distributed systems." : String).data.take
          ((pageRun ("Python, Go, and distributed systems." : String).data
            (sendMessage none (ApiResult.success ("Python, Go, and distributed systems."))
              sampleState).1 k).2.index)) ∧
    (∃ n, (pageRun ("Python, Go, and distributed systems." : String).data
            (sendMessage none (ApiResult.success ("Python, Go, and distributed systems."))
              sampleState).1 n).2.displayed
          = ("Python, Go, and distributed systems." : String).data ∧
          (pageRun ("Python, Go, and distributed systems." : String).data
            (sendMessage none (ApiResult.success ("Python, Go, and distributed systems."))
              sampleState).1 n).2.active = false ∧
          (pageRun ("Python, Go, and distributed systems." : String).data
            (sendMessage none (ApiResult.success ("Python, Go, and distributed systems."))
              sampleState).1 n).1.streamingIdx = none) :=
  success_appends_and_reveals none ("Python, Go, and distributed systems.") sampleState
    (by decide) (by decide) (by decide)

/-- C5: a reveal cancelled at the cursor position it had reached keeps
exactly that prefix as its displayed content — it is not force-completed —
and no number of further ticks ever mutates it again. -/
theorem cancelled_reveal_is_frozen (content : List Char) (m n : Nat) :
    (revealRun content m).1.displayed
        = content.take ((revealRun content m).1.index) ∧
    (cancelReveal (revealRun content m).1).displayed
        = (revealRun content m).1.displayed ∧
    (revealTickN content n (cancelReveal (revealRun content m).1)).displayed
        = content.take ((revealRun content m).1.index) := by
  refine ⟨revealRun_displayed content m, rfl, ?_⟩
  rw [revealTickN_cancel]
  exact revealRun_displayed content m

end Botfolio

namespace Botfolio

/-- C6: submitted text is the trimmed input buffer; an input that is empty
after trimming makes the call a silent no-op (nothing appended, no request
issued).  The quick-reply overload submits the predefined question string,
which equals its own trim. -/
theorem submit_trims_and_ignores_empty (s : ChatState) (api : ApiResult)
    (hs : s.sending = false) :
    (jsTrim s.inputMessage = "" → sendMessage none api s = (s, none)) ∧
    (jsTrim s.inputMessage ≠ "" →
      ∃ rest, (sendMessage none api s).1.messages
          = s.messages ++ { role := Role.user, content := jsTrim s.inputMessage } :: rest) ∧
    (∀ q ∈ recommendedQuestions,
      ∃ rest, (sendMessage (some q) api s).1.messages
          = s.messages ++ { role := Role.user, content := jsTrim q } :: rest) := by
  refine ⟨?_, ?_, ?_⟩
  · intro h
    simp [sendMessage, resolveText, h]
  · intro h
    exact sendMessage_appends_user none api s hs h
  · intro q hq
    have hone : q ≠ "" ∧ jsTrim q = q := by
      simp only [recommendedQuestions, List.mem_cons, List.mem_singleton,
        List.not_mem_nil, or_false] at hq
      rcases hq with h | h | h | h <;> subst h <;> exact ⟨by decide, by decide⟩
    have hm : resolveText (some q) s = q := by simp [resolveText, hone.1]
    obtain ⟨rest, hr⟩ := sendMessage_appends_user (some q) api s hs (by rw [hm]; exact hone.1)
    exact ⟨rest, by rw [hr, hm, hone.2]⟩

/-- C6, instantiated on the sample page (whose pending input `"hello"` is
already trimmed) with a successful response; the empty-input clause is
checked on the same page with a whitespace-only buffer. -/
theorem submit_trims_and_ignores_empty_witness :
    ((jsTrim sampleState.inputMessage = "" →
        sendMessage none (ApiResult.success ("ok")) sampleState = (sampleState, none)) ∧
     (jsTrim sampleState.inputMessage ≠ "" →
        ∃ rest, (sendMessage none (ApiResult.success ("ok")) sampleState).1.messages
          = sampleState.messages ++
              { role := Role.user, content := jsTrim sampleState.inputMessage } :: rest) ∧
     (∀ q ∈ recommendedQuestions,
        ∃ rest, (sendMessage (some q) (ApiResult.success ("ok")) sampleState).1.messages
          = sampleState.messages ++ { role := Role.user, content := jsTrim q } :: rest)) ∧
    sendMessage none (ApiResult.success ("ok")) { sampleState with inputMessage := "   " }
      = ({ sampleState with inputMessage := "   " }, none) :=
  ⟨submit_trims_and_ignores_empty sampleState (ApiResult.success ("ok")) (by decide),
   (submit_trims_and_ignores_empty { sampleState with inputMessage := "   " }
      (ApiResult.success ("ok")) (by decide)).1 (by decide)⟩

/-- The C7 sequence invariant as stated by the spec: every user message is
immediately followed by an assistant message. -/
def userFollowedByAssistant (l : List Message) : Prop :=
  ∀ i, i < l.length → (l.get? i).map Message.role = some Role.user →
    (l.get? (i + 1)).map Message.role = some Role.assistant

/-- C7, counterexample: after the welcome seed, one resolved question whose
request ended in a 429 leaves the sequence `[assistant, user]` — the user
message at index 1 is followed by no assistant message at all, violating
the stated invariant. -/
theorem user_followed_counterexample :
    ¬ userFollowedByAssistant
        ((sendMessage (some ("What are your skills?")) ApiResult.rateLimited
          (fetchPortfolio (LookupResult.ok ("Jane Doe")) initState)).1.messages) := by
  intro h
  have h1 := h 1 (by decide) (by decide)
  exact absurd h1 (by decide)

/-- C7, amended: once its request has resolved with a success or a generic
failure, a user message is immediately followed by exactly one assistant
message; a quota-exceeded (429) resolution instead leaves the user message
with no assistant message after it. -/
theorem user_followed_unless_quota (t : Option String) (api : ApiResult) (s : ChatState)
    (hs : s.sending = false) (hm : resolveText t s ≠ "")
    (hq : api ≠ ApiResult.rateLimited) :
    (∃ a, (sendMessage t api s).1.messages
        = s.messages ++ [{ role := Role.user, content := resolveText t s },
                         { role := Role.assistant, content := a }]) ∧
    (sendMessage t ApiResult.rateLimited s).1.messages
        = s.messages ++ [{ role := Role.user, content := resolveText t s }] := by
  refine ⟨?_, by rw [sendMessage_rateLimited_eq t s hs hm]⟩
  cases api with
  | success r => exact ⟨r, by rw [sendMessage_success_eq t r s hs hm]⟩
  | rateLimited => exact absurd rfl hq
  | otherFailure => exact ⟨fallbackText, by rw [sendMessage_otherFailure_eq t s hs hm]⟩

/-- C7, instantiated: the sample page submits `"hello"`; the request
resolves with a generic failure, and the user message is followed by
exactly the fallback assistant message. -/
theorem user_followed_unless_quota_witness :
    (∃ a, (sendMessage none ApiResult.otherFailure sampleState).1.messages
        = sampleState.messages ++
            [{ role := Role.user, content := resolveText none sampleState },
             { role := Role.assistant, content := a }]) ∧
    (sendMessage none ApiResult.rateLimited sampleState).1.messages
        = sampleState.messages ++
            [{ role := Role.user, content := resolveText none sampleState }] :=
  user_followed_unless_quota none ApiResult.otherFailure sampleState
    (by decide) (by decide) (by decide)

/-- C8, counterexample: after initialization with owner `"Jane Doe"` the
sequence has length 1 and its message has role `assistant`, but its content
is not the string claimed by the spec (the one ending in tumblr). -/
theorem seed_message_counterexample :
    (fetchPortfolio (LookupResult.ok ("Jane Doe")) initState).messages.length = 1 ∧
    ((fetchPortfolio (LookupResult.ok ("Jane Doe")) initState).messages.get? 0).map
        Message.role = some Role.assistant ∧
    ((fetchPortfolio (LookupResult.ok ("Jane Doe")) initState).messages.get? 0).map
        Message.content
      ≠ some ("Hi! I\x27m the AI assistant for **Jane Doe**\x27s portfolio...tumblr") := by
  decide

/-- C8, amended: after initialization with owner `"Jane Doe"` the sequence
is exactly the one assistant welcome message, whose content is the actual
seed string referencing the name of the owner. -/
theorem seed_message_initialization :
    (fetchPortfolio (LookupResult.ok ("Jane Doe")) initState).messages
      = [{ role := Role.assistant,
           content := "Hi! I\x27m the AI assistant for **Jane Doe**\x27s portfolio. Ask me anything about their experience, skills, projects, or qualifications!" }] ∧
    (fetchPortfolio (LookupResult.ok ("Jane Doe")) initState).messages.length = 1 := by
  decide

end Botfolio

namespace Botfolio

/-- C9: when the portfolio lookup fails, the engine is never initialized —
no welcome message is seeded (the sequence is untouched), the portfolio
stays unset, and the page renders the not-found state rather than the chat
surface.  `fetchPortfolio` is a total function of the settled outcome: the
rejection is classified locally and cannot escape. -/
theorem lookup_failure_not_initialized (s : ChatState) (hp : s.portfolio = none) :
    (fetchPortfolio LookupResult.failure s).messages = s.messages ∧
    (fetchPortfolio LookupResult.failure s).portfolio = none ∧
    render (fetchPortfolio LookupResult.failure s) = ViewState.notFound := by
  simp [fetchPortfolio, render, hp]

/-- C9, instantiated: a failed lookup from the initial page state. -/
theorem lookup_failure_not_initialized_witness :
    (fetchPortfolio LookupResult.failure initState).messages = initState.messages ∧
    (fetchPortfolio LookupResult.failure initState).portfolio = none ∧
    render (fetchPortfolio LookupResult.failure initState) = ViewState.notFound :=
  lookup_failure_not_initialized initState (by decide)

/-- C10: the stored sequence is append-only — every `sendMessage` leaves the
old messages as a prefix, a successful send stores the complete response
text in the appended assistant message at append time, the reveal ticks
never write into the stored sequence, the published reveal string is always
a derived prefix of the stored content, and initialization only appends to
the empty initial sequence. -/
theorem stored_messages_append_only :
    (∀ t api s, ∃ u, (sendMessage t api s).1.messages = s.messages ++ u) ∧
    (∀ t resp s,
        (sendMessage t (ApiResult.success resp) s).1.messages = s.messages ∨
        (sendMessage t (ApiResult.success resp) s).1.messages
          = s.messages ++ [{ role := Role.user, content := resolveText t s },
                           { role := Role.assistant, content := resp }]) ∧
    (∀ c s n, (pageRun c s n).1.messages = s.messages) ∧
    (∀ c n, (revealRun c n).1.displayed = c.take ((revealRun c n).1.index)) ∧
    (∀ r, ∃ u, (fetchPortfolio r initState).messages = initState.messages ++ u) := by
  refine ⟨?_, ?_, ?_, ?_, ?_⟩
  · intro t api s
    by_cases hs : s.sending = true
    · rw [sendMessage_of_sending t api s hs]
      exact ⟨[], by simp⟩
    · have hs' : s.sending = false := by
        cases h : s.sending with
        | false => rfl
        | true => exact absurd h hs
      by_cases hm : resolveText t s = ""
      · refine ⟨[], ?_⟩
        simp [sendMessage, hm]
      · obtain ⟨rest, hr⟩ := sendMessage_appends_user t api s hs' hm
        exact ⟨_, hr⟩
  · intro t resp s
    by_cases hs : s.sending = true
    · left
      rw [sendMessage_of_sending t (ApiResult.success resp) s hs]
    · have hs' : s.sending = false := by
        cases h : s.sending with
        | false => rfl
        | true => exact absurd h hs
      by_cases hm : resolveText t s = ""
      · left
        simp [sendMessage, hm]
      · right
        rw [sendMessage_success_eq t resp s hs' hm]
  · intro c s n
    rw [pageRun_eq]
    cases h : (revealRun c n).2 <;> simp [h]
  · intro c n
    exact revealRun_displayed c n
  · intro r
    cases r with
    | ok name => exact ⟨[seedMessage name], by simp [fetchPortfolio, initState]⟩
    | failure => exact ⟨[], by simp [fetchPortfolio, initState]⟩

end Botfolio
